import Mathlib

/-!
Page behaviour of the portfolio site (`script.js`)

A shallow embedding of the two controllers of `script.js`:

* the navigation controller (mobile menu toggle, nav height, scrollspy,
  animation-frame throttling of scroll events);
* the projects carousel (visible cards, card width, index clamping,
  previous / next, filters).

Conventions of the embedding.

* Pixel quantities that the script only adds and compares (`scrollY`,
  `offsetTop`, ...) are integers; a card's measured width is a rational.
* A DOM element that may be missing from the page is an `Option`.
* Strings are Lean strings. `String.prototype.toLowerCase` is a built-in of
  the language: the definitions that call it take it as the parameter `lower`.
* What the browser computes from the page (the cascade of the style sheets,
  the selectors `document.querySelector` accepts) is data of the page.
* Mutable closure variables (`idx`, `ticking`, ...) are fields of an explicit
  state record that every handler takes and returns.
-/

namespace Portfolio

/-! ## Navigation: mobile menu -/

/-- The `.menu-links` element inside the mobile nav, with its `aria-hidden`
attribute (`none` while the attribute is not set). -/
structure Menu where
  ariaHidden : Option String
deriving DecidableEq, Repr

/-- The element `#hamburger-nav`: whether its class list holds `open` and
`scrolled`, and the `.menu-links` element found inside it, if any. -/
structure HamburgerNav where
  openClass : Bool
  scrolled : Bool
  menu : Option Menu
deriving DecidableEq, Repr

/-- JavaScript `String(b)` for a boolean. -/
def boolString (b : Bool) : String :=
  match b with
  | true => "true"
  | false => "false"

/-- The statement `if (menu) menu.setAttribute('aria-hidden', v)`. -/
def setAriaHidden (menu : Option Menu) (v : String) : Option Menu :=
  match menu with
  | none => none
  | some _ => some { ariaHidden := some v }

/-- The function `window.toggleMenu`. `force` is `some b` when the argument is
a boolean and `none` when it is omitted. -/
def toggleMenu (hamburgerNav : Option HamburgerNav) (force : Option Bool) :
    Option HamburgerNav :=
  match hamburgerNav with
  | none => none
  | some nav =>
    match force with
    | some f =>
      some { nav with openClass := f, menu := setAriaHidden nav.menu (boolString (!f)) }
    | none =>
      let nowOpen := !nav.openClass
      some { nav with openClass := nowOpen,
                      menu := setAriaHidden nav.menu (boolString (!nowOpen)) }

/-! ## Navigation: nav height -/

/-- White space that `parseInt` skips in front of the number
(`StrWhiteSpaceChar`: white space and line terminators). -/
def isStrWhiteSpace (c : Char) : Bool :=
  let n := c.toNat
  n = 9 || n = 10 || n = 11 || n = 12 || n = 13 || n = 32 || n = 160 ||
  n = 0x1680 || (0x2000 ≤ n && n ≤ 0x200A) || n = 0x2028 || n = 0x2029 ||
  n = 0x202F || n = 0x205F || n = 0x3000 || n = 0xFEFF

/-- Value of a run of decimal digits, most significant first. -/
def digitsValue (ds : List Char) : Nat :=
  ds.foldl (fun acc c => 10 * acc + (c.toNat - 48)) 0

/-- JavaScript `parseInt(s, 10)`: skip leading white space, read an optional
sign, then the longest run of decimal digits; `none` stands for `NaN` (no
digit where the number should start). What follows the digits is ignored. -/
def parseInt (s : String) : Option Int :=
  let t := s.toList.dropWhile isStrWhiteSpace
  let signed : Int × List Char :=
    match t with
    | '-' :: r => (-1, r)
    | '+' :: r => (1, r)
    | r => (1, r)
  let z := signed.2.takeWhile Char.isDigit
  if z.isEmpty then none else some (signed.1 * (digitsValue z : Int))

/-- The function `getNavHeight`. Its argument is what
`getComputedStyle(document.documentElement).getPropertyValue('--nav-height')`
returns: the empty string when the variable is not set. Both `||` of the
source are kept: `'' || '78px'` and `n || 78`, where `NaN` and `0` are falsy. -/
def getNavHeight (navHeightVar : String) : Int :=
  let val := if navHeightVar = "" then "78px" else navHeightVar
  match parseInt val with
  | none => 78
  | some n => if n = 0 then 78 else n

/-! ## Navigation: scrollspy -/

/-- What the scrollspy reads of the window and the document. -/
structure Window where
  scrollY : Int
  innerHeight : Int
  /-- The value of `document.body.scrollHeight`. -/
  scrollHeight : Int
  /-- The computed `--nav-height` of the root element, `""` when unset. -/
  navHeightVar : String
deriving DecidableEq, Repr

/-- A page section: `offsetTop` and `offsetHeight`. -/
structure Section where
  offsetTop : Int
  offsetHeight : Int
deriving DecidableEq, Repr

/-- Identity of a nav anchor element. -/
abbrev LinkId := Nat

/-- A position lies in the vertical span `[top, top + height)` of a section. -/
def InSpan (s : Section) (p : Int) : Prop :=
  s.offsetTop ≤ p ∧ p < s.offsetTop + s.offsetHeight

instance (s : Section) (p : Int) : Decidable (InSpan s p) :=
  inferInstanceAs (Decidable (s.offsetTop ≤ p ∧ p < s.offsetTop + s.offsetHeight))

/-- An entry of the `sections` array: `{ link, section }`. -/
structure SpyEntry where
  link : LinkId
  sec : Section
deriving DecidableEq, Repr

/-- A nav anchor (`.nav-links a, .menu-links a`): the element and its `href`
attribute, `none` when it has none. -/
structure Anchor where
  id : LinkId
  href : Option String
deriving DecidableEq, Repr

/-- JavaScript `s.startsWith(t)`. -/
def startsWith (s t : String) : Bool :=
  List.isPrefixOf t.data s.data

/-- The callback of `navAnchors.map` that builds `sections`: `some none` for
an anchor that is left out (no `href`, an `href` that does not start with
`#`, no element found), `some (some entry)` for one that is kept, and `none`
when `document.querySelector` throws. `querySelector` gives, for a selector,
`none` when the browser rejects it as invalid (`#` alone, for one) and
otherwise the element found, if any. -/
def sectionOf (querySelector : String → Option (Option Section)) (a : Anchor) :
    Option (Option SpyEntry) :=
  match a.href with
  | none => some none
  | some href =>
    if href = "" || !startsWith href "#" then some none
    else
      match querySelector href with
      | none => none
      | some found => some (found.map (fun sec => { link := a.id, sec := sec }))

/-- The array `sections`: the anchors whose `href` starts with `#` and
resolves, through `document.querySelector`, to an element of the page, in the
order of `navAnchors`. The result is `none` when `document.querySelector`
throws on one of them: the exception ends the script of the navigation. -/
def buildSections (querySelector : String → Option (Option Section)) :
    List Anchor → Option (List SpyEntry)
  | [] => some []
  | a :: rest =>
    match sectionOf querySelector a with
    | none => none
    | some entry =>
      match buildSections querySelector rest with
      | none => none
      | some entries => some (entry.toList ++ entries)

/-- The test of the scan loop: `scrollPos >= sTop && scrollPos < sBottom`
with `sBottom = sTop + offsetHeight`. -/
def spanContains (e : SpyEntry) (scrollPos : Int) : Bool :=
  let sTop := e.sec.offsetTop
  let sBottom := sTop + e.sec.offsetHeight
  decide (scrollPos ≥ sTop) && decide (scrollPos < sBottom)

/-- The `for` loop of `updateActiveLink`: walk the entries in order and stop
at the first whose span holds `scrollPos`. -/
def scanSections (scrollPos : Int) : List SpyEntry → Option LinkId
  | [] => none
  | e :: rest => if spanContains e scrollPos then some e.link else scanSections scrollPos rest

/-- The link `updateActiveLink` ends up with in `found`. -/
def foundLink (w : Window) (sections : List SpyEntry) : Option LinkId :=
  let navH := getNavHeight w.navHeightVar
  let scrollPos := w.scrollY + navH + 12
  match scanSections scrollPos sections with
  | some l => some l
  | none =>
    if w.scrollY + w.innerHeight ≥ w.scrollHeight - 10 then
      (sections[sections.length - 1]?).map (fun e => e.link)
    else none

/-- The function `updateActiveLink`, on the `active` class of the anchors:
every anchor of `navAnchors` loses the class, then `found` gets it. -/
def updateActiveLink (w : Window) (navAnchors : List LinkId) (sections : List SpyEntry)
    (active : LinkId → Bool) : LinkId → Bool :=
  let found := foundLink w sections
  let cleared : LinkId → Bool := fun a => if a ∈ navAnchors then false else active a
  match found with
  | none => cleared
  | some l => fun a => if a = l then true else cleared a

/-! ## Navigation: scroll throttling -/

/-- The nav elements the scroll handlers write to. -/
structure NavPage where
  /-- The `scrolled` class of `#desktop-nav`; `none` when the element is absent. -/
  desktopNav : Option Bool
  hamburgerNav : Option HamburgerNav
  /-- The `active` class of every anchor. -/
  active : LinkId → Bool

/-- The function `setScrolledState`. -/
def setScrolledState (p : NavPage) (isOn : Bool) : NavPage :=
  { p with desktopNav := p.desktopNav.map (fun _ => isOn),
           hamburgerNav := p.hamburgerNav.map (fun nav => { nav with scrolled := isOn }) }

/-- The function `handleScrollBg`. -/
def handleScrollBg (w : Window) (p : NavPage) : NavPage :=
  setScrolledState p (decide (w.scrollY > 20))

/-- State of the scroll throttle: the closure variable `ticking`, the number
of recompute callbacks handed to `requestAnimationFrame` and not yet run, and
the page they write to. -/
structure ScrollState where
  ticking : Bool
  queued : Nat
  page : NavPage

/-- The function `onScroll`. -/
def onScroll (s : ScrollState) : ScrollState :=
  if !s.ticking then { s with queued := s.queued + 1, ticking := true } else s

/-- The callback `onScroll` hands to `requestAnimationFrame`. -/
def frameCallback (w : Window) (navAnchors : List LinkId) (sections : List SpyEntry)
    (s : ScrollState) : ScrollState :=
  let p := handleScrollBg w s.page
  let p := { p with active := updateActiveLink w navAnchors sections p.active }
  { s with page := p, ticking := false, queued := s.queued - 1 }

/-- An animation frame fires: every queued callback runs, oldest first. -/
def fireFrame (w : Window) (navAnchors : List LinkId) (sections : List SpyEntry)
    (s : ScrollState) : ScrollState :=
  Nat.iterate (frameCallback w navAnchors sections) s.queued s

/-- States of the scroll throttle reachable from `ticking = false` with
nothing queued, by scroll events and animation frames (the window may have
any geometry when a frame fires). -/
inductive ScrollReachable (navAnchors : List LinkId) (sections : List SpyEntry) :
    ScrollState → Prop
  | start (page : NavPage) :
      ScrollReachable navAnchors sections { ticking := false, queued := 0, page := page }
  | scroll {s : ScrollState} :
      ScrollReachable navAnchors sections s → ScrollReachable navAnchors sections (onScroll s)
  | frame {s : ScrollState} (w : Window) :
      ScrollReachable navAnchors sections s →
      ScrollReachable navAnchors sections (fireFrame w navAnchors sections s)

/-- Invariant of the scroll throttle: at most one callback is queued, and
`ticking` tells whether one is. -/
def ScrollInv (s : ScrollState) : Prop :=
  s.queued ≤ 1 ∧ (s.ticking = true ↔ s.queued = 1)

/-! ## Projects carousel

Two sets of elements meet in the carousel: the children of
`.carousel-track`, which `getVisibleCards` walks, and the elements of class
`proj-card`, whose inline `display` the filter writes. An element carries
the pieces of the DOM the script reads or writes: whether it has the class
`proj-card`, its `data-tools` attribute, its inline `display`, the `display`
and `visibility` that `getComputedStyle` reports, and the width of its
bounding rectangle. The computed `display` follows from the inline one
through the cascade of the page's style sheets, which is a function carried
by the element. -/

/-- An element of the page: a child of the carousel track or a project card. -/
structure Card where
  /-- Whether the element matches `.proj-card`. -/
  projCard : Bool
  /-- The attribute `data-tools`; `none` when the element has none. -/
  dataTools : Option String
  /-- The inline `style.display`; `""` when the element has none. -/
  inlineDisplay : String
  /-- The cascade: the computed `display` for a given inline `display`. -/
  cascade : String → String
  /-- The computed `visibility`. -/
  visibility : String
  /-- The value of `getBoundingClientRect().width`. -/
  width : ℚ

/-- The `display` of `window.getComputedStyle(card)`. -/
def Card.computedDisplay (card : Card) : String :=
  card.cascade card.inlineDisplay

/-- A previous / next control: its `disabled` property. -/
structure Button where
  disabled : Bool
deriving DecidableEq, Repr

/-- The function `getVisibleCards`. -/
def getVisibleCards (track : List Card) : List Card :=
  track.filter (fun card => card.computedDisplay != "none" && card.visibility != "hidden")

/-- JavaScript `Math.round`: the nearest integer, halves going up. -/
def mathRound (x : ℚ) : Int :=
  Int.floor (x + 1 / 2)

/-- State of the carousel: the closure variables `idx`, `visibleCards`,
`gap`, `cardWidth` and the elements the handlers write to. -/
@[ext]
structure Carousel where
  /-- The children of the track, in document order. -/
  track : List Card
  /-- The elements of class `proj-card` that are not children of the track. -/
  otherProjCards : List Card
  idx : Int
  visibleCards : List Card
  gap : ℚ
  cardWidth : Int
  /-- The inline `transform` of the track. -/
  transform : String
  prevBtn : Option Button
  nextBtn : Option Button
  /-- Text of `#projectCount`; `none` when the element is absent. -/
  projectCountNode : Option String
  /-- The `active` class of every filter button. -/
  filterActive : Nat → Bool

/-- The function `computeCardWidth`: refreshes `visibleCards` and returns the
width of a step. -/
def computeCardWidth (c : Carousel) : Carousel × Int :=
  let c1 := { c with visibleCards := getVisibleCards c.track }
  match c1.visibleCards with
  | [] => (c1, 360)
  | first :: _ => (c1, mathRound (first.width + c1.gap))

/-- The function `updateCarousel`. -/
def updateCarousel (c : Carousel) : Carousel :=
  let r := computeCardWidth c
  let c1 := { r.1 with cardWidth := r.2 }
  let maxIndex : Int := max 0 ((c1.visibleCards.length : Int) - 1)
  let idx : Int := min (max 0 c1.idx) maxIndex
  { c1 with
    idx := idx
    transform := "translateX(" ++ toString (-idx * c1.cardWidth) ++ "px)"
    prevBtn := c1.prevBtn.map (fun _ => { disabled := decide (idx = 0) })
    nextBtn := c1.nextBtn.map (fun _ => { disabled := decide (idx ≥ maxIndex) }) }

/-- The page as the `DOMContentLoaded` handler finds it, after its set-up:
`idx = 0`, `visibleCards`, `gap = 18`, `cardWidth`, then the initial
`updateCarousel()`. The argument gives the elements of the page. -/
def initCarousel (page : Carousel) : Carousel :=
  let c0 := { page with idx := 0, visibleCards := getVisibleCards page.track, gap := 18 }
  let r := computeCardWidth c0
  updateCarousel { r.1 with cardWidth := r.2 }

/-- The click handler of the previous control. -/
def prevClick (c : Carousel) : Carousel :=
  updateCarousel { c with idx := max 0 (c.idx - 1) }

/-- The click handler of the next control. -/
def nextClick (c : Carousel) : Carousel :=
  let maxIndex : Int := max 0 (((getVisibleCards c.track).length : Int) - 1)
  updateCarousel { c with idx := min maxIndex (c.idx + 1) }

/-- Lower-casing of the ASCII letters: what `toLowerCase` returns on a string
of ASCII characters. It stands for `lower` at the sample inputs. -/
def asciiLower (s : String) : String :=
  String.mk (s.data.map Char.toLower)

/-- Whether `t` occurs in `s` as a run of consecutive characters. -/
def includesChars : List Char → List Char → Bool
  | [], t => t.isEmpty
  | c :: cs, t => List.isPrefixOf t (c :: cs) || includesChars cs t

/-- JavaScript `s.includes(t)`. -/
def includes (s t : String) : Bool :=
  includesChars s.data t.data

/-- The test the filter handler makes on one card:
`tool === 'all' || tools.includes(tool)` with
`tools = (p.getAttribute('data-tools') || '').toLowerCase()`.
`lower` is `toLowerCase`; `tool` is the `data-tool` attribute of the clicked
button, `none` when the button has none (`includes` then looks for the text
`null`). -/
def toolMatches (lower : String → String) (tool : Option String)
    (dataTools : Option String) : Bool :=
  let tools := lower (dataTools.getD "")
  decide (tool = some "all") || includes tools (tool.getD "null")

/-- The body of `projects.forEach`: the filter handler writes the inline
`display` of one project card, `''` to show it and `'none'` to hide it. -/
def setDisplay (lower : String → String) (tool : Option String) (p : Card) : Card :=
  if toolMatches lower tool p.dataTools then { p with inlineDisplay := "" }
  else { p with inlineDisplay := "none" }

/-- What the filter handler does to a child of the track: the element is
written when it is one of `document.querySelectorAll('.proj-card')` and left
alone otherwise. -/
def applyFilter (lower : String → String) (tool : Option String) (p : Card) : Card :=
  if p.projCard then setDisplay lower tool p else p

/-- The text the filter handler writes to the count node. -/
def countText (visible : Nat) : String :=
  toString visible ++ " project" ++ (if visible ≠ 1 then "s" else "")

/-- The click handler of the filter button `btn` whose `data-tool` is `tool`:
it marks the button, writes the inline `display` of every `.proj-card` of the
document (those among the children of the track and the others), writes the
count of `getVisibleCards()` and resets the carousel. -/
def filterClick (lower : String → String) (btn : Nat) (tool : Option String)
    (c : Carousel) : Carousel :=
  let c1 := { c with filterActive := fun b => decide (b = btn) }
  let c2 := { c1 with track := c1.track.map (applyFilter lower tool),
                      otherProjCards := c1.otherProjCards.map (setDisplay lower tool) }
  let visible := (getVisibleCards c2.track).length
  let c3 := { c2 with projectCountNode := c2.projectCountNode.map (fun _ => countText visible) }
  updateCarousel { c3 with idx := 0 }

/-- The operations that change the carousel: a recompute (resize or observed
mutation, on its animation frame), the two controls and a filter button. -/
inductive CarouselOp where
  | update
  | prev
  | next
  | filter (btn : Nat) (tool : Option String)

/-- One operation of the carousel. -/
def CarouselOp.run (lower : String → String) : CarouselOp → Carousel → Carousel
  | .update, c => updateCarousel c
  | .prev, c => prevClick c
  | .next, c => nextClick c
  | .filter btn tool, c => filterClick lower btn tool c

/-- States of the carousel right after an operation, starting from the
initial state. Between two operations the track may change in any way
(cards added, removed, restyled, resized): the operation runs on the track
as it is at that moment. -/
inductive CarouselReachable (lower : String → String) : Carousel → Prop
  | init (page : Carousel) : CarouselReachable lower (initCarousel page)
  | step {c : Carousel} (track : List Card) (op : CarouselOp) :
      CarouselReachable lower c → CarouselReachable lower (op.run lower { c with track := track })

/-! ## Sample pages -/

/-- Three sections; the second and the third overlap. -/
def sampleSections : List SpyEntry :=
  [{ link := 1, sec := { offsetTop := 0, offsetHeight := 150 } },
   { link := 2, sec := { offsetTop := 150, offsetHeight := 500 } },
   { link := 3, sec := { offsetTop := 100, offsetHeight := 300 } }]

/-- A window scrolled to 100px, nav height left to its default. -/
def sampleWindow : Window :=
  { scrollY := 100, innerHeight := 800, scrollHeight := 3000, navHeightVar := "" }

/-- A nav page with both containers and no active link. -/
def sampleNavPage : NavPage :=
  { desktopNav := some false,
    hamburgerNav := some { openClass := false, scrolled := false, menu := some { ariaHidden := none } },
    active := fun _ => false }

/-- A project card of an ordinary page: the class `proj-card`, no inline
`display`, style sheets that display it as a block unless the inline
`display` says otherwise, visible, 342px wide. -/
def plainCard (dataTools : Option String) : Card :=
  { projCard := true, dataTools := dataTools, inlineDisplay := "",
    cascade := fun inline => if inline = "" then "block" else inline,
    visibility := "visible", width := 342 }

/-- Five cards, two of them tagged React. -/
def sampleTrack : List Card :=
  [plainCard (some "React, Node"), plainCard (some "Excel"), plainCard (some "Power BI, SQL"),
   plainCard (some "REACT, D3"), plainCard none]

/-- Three cards, the first one hidden through `visibility`. -/
def hiddenTrack : List Card :=
  [{ plainCard (some "React") with visibility := "hidden" },
   plainCard (some "React, Node"), plainCard (some "Excel")]

/-- Three cards, the first one hidden by a rule of the style sheets, whatever
its inline `display`. -/
def sheetHiddenTrack : List Card :=
  [{ plainCard (some "React") with cascade := fun _ => "none" },
   plainCard (some "React, Node"), plainCard (some "Excel")]

/-- Two cards, the second one hidden by a filter. -/
def singleTrack : List Card :=
  [plainCard (some "Excel"), { plainCard (some "React") with inlineDisplay := "none" }]

/-- A page with both controls and the count node around a given track, the
index at `idx`. -/
def samplePage (track : List Card) (idx : Int) : Carousel :=
  { track := track, otherProjCards := [], idx := idx, visibleCards := [], gap := 18,
    cardWidth := 360, transform := "", prevBtn := some { disabled := false },
    nextBtn := some { disabled := false }, projectCountNode := some "5 projects",
    filterActive := fun b => decide (b = 0) }

/-- A run of the carousel: the initial state on the five sample cards, two
next clicks, then a recompute once the track has become `hiddenTrack`. -/
def sampleRun : Carousel :=
  CarouselOp.update.run asciiLower
    { CarouselOp.next.run asciiLower
        { CarouselOp.next.run asciiLower
            { initCarousel (samplePage sampleTrack 0) with track := sampleTrack } with
          track := sampleTrack } with
      track := hiddenTrack }

/-! ## Lemmas: navigation -/

theorem spanContains_iff (e : SpyEntry) (p : Int) :
    spanContains e p = true ↔ InSpan e.sec p := by
  simp [spanContains, InSpan]

theorem spanContains_false_iff (e : SpyEntry) (p : Int) :
    spanContains e p = false ↔ ¬ InSpan e.sec p := by
  rw [← spanContains_iff]
  simp

/-- The scan returns the link of the first entry, in list order, whose span
holds the position. -/
theorem scanSections_first (p : Int) :
    ∀ (sections : List SpyEntry) (i : Nat) (hi : i < sections.length),
      InSpan sections[i].sec p →
      (∀ (j : Nat) (hj : j < i), ¬ InSpan (sections[j]).sec p) →
      scanSections p sections = some sections[i].link := by
  intro sections
  induction sections with
  | nil => intro i hi; simp at hi
  | cons e rest ih =>
    intro i hi hin hbefore
    cases i with
    | zero =>
      have h0 : spanContains e p = true := (spanContains_iff e p).2 (by simpa using hin)
      simp [scanSections, h0]
    | succ k =>
      have hk : k < rest.length := by simpa using hi
      have h0 : spanContains e p = false :=
        (spanContains_false_iff e p).2 (by simpa using hbefore 0 (Nat.succ_pos k))
      have hrest : scanSections p rest = some rest[k].link := by
        apply ih k hk
        · simpa using hin
        · intro j hj
          have := hbefore (j + 1) (Nat.succ_lt_succ hj)
          simpa using this
      simp [scanSections, h0, hrest]

/-- The scan finds nothing when no span holds the position. -/
theorem scanSections_none (p : Int) :
    ∀ (sections : List SpyEntry), (∀ e ∈ sections, ¬ InSpan e.sec p) →
      scanSections p sections = none := by
  intro sections
  induction sections with
  | nil => intro _; rfl
  | cons e rest ih =>
    intro h
    have h0 : spanContains e p = false :=
      (spanContains_false_iff e p).2 (h e (List.mem_cons_self e rest))
    have hrest := ih (fun x hx => h x (List.mem_cons_of_mem e hx))
    simp [scanSections, h0, hrest]

/-- A link the scan returns is the link of an entry of the list. -/
theorem scanSections_mem (p : Int) :
    ∀ (sections : List SpyEntry) (l : LinkId), scanSections p sections = some l →
      l ∈ sections.map (fun e => e.link) := by
  intro sections
  induction sections with
  | nil => intro l h; simp [scanSections] at h
  | cons e rest ih =>
    intro l h
    by_cases h0 : spanContains e p = true
    · simp [scanSections, h0] at h
      simp [h]
    · simp [scanSections, h0] at h
      have := ih l h
      simp at this ⊢
      exact Or.inr this

/-- Every anchor of `navAnchors` is active afterwards exactly when it is
`found`. -/
theorem updateActiveLink_apply (w : Window) (navAnchors : List LinkId)
    (sections : List SpyEntry) (active : LinkId → Bool) (a : LinkId) (ha : a ∈ navAnchors) :
    updateActiveLink w navAnchors sections active a = true ↔ foundLink w sections = some a := by
  unfold updateActiveLink
  cases hf : foundLink w sections with
  | none => simp [ha]
  | some l =>
    by_cases hal : a = l
    · simp [hal]
    · have hla : ¬ l = a := fun h => hal h.symm
      simp [hal, ha, hla]

theorem sectionOf_link (querySelector : String → Option (Option Section)) (a : Anchor)
    (e : SpyEntry) (he : sectionOf querySelector a = some (some e)) : e.link = a.id := by
  unfold sectionOf at he
  cases hh : a.href with
  | none => simp [hh] at he
  | some href =>
    simp only [hh] at he
    split at he
    · simp at he
    · cases hq : querySelector href with
      | none => simp [hq] at he
      | some found =>
        simp only [hq, Option.some.injEq, Option.map_eq_some'] at he
        obtain ⟨sec, _, hsec⟩ := he
        rw [← hsec]

/-- The links of `sections` are anchors of the nav lists. -/
theorem buildSections_link_mem (querySelector : String → Option (Option Section)) :
    ∀ (navAnchors : List Anchor) (sections : List SpyEntry),
      buildSections querySelector navAnchors = some sections →
      ∀ e ∈ sections, e.link ∈ navAnchors.map (fun a => a.id) := by
  intro navAnchors
  induction navAnchors with
  | nil =>
    intro sections h e he
    simp only [buildSections, Option.some.injEq] at h
    rw [← h] at he
    cases he
  | cons a rest ih =>
    intro sections h e he
    unfold buildSections at h
    cases hs : sectionOf querySelector a with
    | none => simp [hs] at h
    | some entry =>
      cases hr : buildSections querySelector rest with
      | none => simp [hs, hr] at h
      | some entries =>
        simp only [hs, hr, Option.some.injEq] at h
        rw [← h, List.mem_append] at he
        rw [List.map_cons, List.mem_cons]
        rcases he with he | he
        · left
          cases entry with
          | none => simp at he
          | some e0 =>
            simp only [Option.toList, List.mem_singleton] at he
            rw [he]
            exact sectionOf_link querySelector a e0 hs
        · right
          exact ih entries hr e he

theorem onScroll_inv (s : ScrollState) (h : ScrollInv s) : ScrollInv (onScroll s) := by
  obtain ⟨hq, ht⟩ := h
  unfold onScroll
  cases htick : s.ticking with
  | true => simpa [htick, ScrollInv] using And.intro hq (by simpa [htick] using ht)
  | false =>
    have hne : s.queued ≠ 1 := by
      intro h1
      have := ht.2 h1
      simp [htick] at this
    have h0 : s.queued = 0 := by omega
    simp [ScrollInv, h0]

theorem fireFrame_inv (w : Window) (navAnchors : List LinkId) (sections : List SpyEntry)
    (s : ScrollState) (h : ScrollInv s) : ScrollInv (fireFrame w navAnchors sections s) := by
  obtain ⟨hq, ht⟩ := h
  unfold fireFrame
  have hcases : s.queued = 0 ∨ s.queued = 1 := by omega
  rcases hcases with h0 | h1
  · rw [h0]
    exact ⟨hq, ht⟩
  · rw [h1]
    simp [ScrollInv, frameCallback, h1]

theorem scrollReachable_inv (navAnchors : List LinkId) (sections : List SpyEntry)
    (s : ScrollState) (h : ScrollReachable navAnchors sections s) : ScrollInv s := by
  induction h with
  | start page => simp [ScrollInv]
  | scroll _ ih => exact onScroll_inv _ ih
  | frame w _ ih => exact fireFrame_inv w navAnchors sections _ ih

/-! ## Lemmas: carousel -/

theorem computeCardWidth_fst (c : Carousel) :
    (computeCardWidth c).1 = { c with visibleCards := getVisibleCards c.track } := by
  cases h : getVisibleCards c.track <;> simp [computeCardWidth, h]

theorem computeCardWidth_snd_track (c d : Carousel) (ht : c.track = d.track)
    (hg : c.gap = d.gap) : (computeCardWidth c).2 = (computeCardWidth d).2 := by
  cases h : getVisibleCards d.track <;> simp [computeCardWidth, ht, hg, h]

theorem computeCardWidth_none (c : Carousel) (h : getVisibleCards c.track = []) :
    (computeCardWidth c).2 = 360 := by
  unfold computeCardWidth
  simp only [h]

theorem updateCarousel_track (c : Carousel) : (updateCarousel c).track = c.track := by
  simp [updateCarousel, computeCardWidth_fst]

theorem updateCarousel_gap (c : Carousel) : (updateCarousel c).gap = c.gap := by
  simp [updateCarousel, computeCardWidth_fst]

theorem updateCarousel_otherProjCards (c : Carousel) :
    (updateCarousel c).otherProjCards = c.otherProjCards := by
  simp [updateCarousel, computeCardWidth_fst]

theorem updateCarousel_visibleCards (c : Carousel) :
    (updateCarousel c).visibleCards = getVisibleCards c.track := by
  simp [updateCarousel, computeCardWidth_fst]

theorem updateCarousel_cardWidth (c : Carousel) :
    (updateCarousel c).cardWidth = (computeCardWidth c).2 := by
  simp [updateCarousel, computeCardWidth_fst]

theorem updateCarousel_projectCountNode (c : Carousel) :
    (updateCarousel c).projectCountNode = c.projectCountNode := by
  simp [updateCarousel, computeCardWidth_fst]

theorem updateCarousel_filterActive (c : Carousel) :
    (updateCarousel c).filterActive = c.filterActive := by
  simp [updateCarousel, computeCardWidth_fst]

theorem updateCarousel_idx (c : Carousel) :
    (updateCarousel c).idx =
      min (max 0 c.idx) (max 0 (((getVisibleCards c.track).length : Int) - 1)) := by
  simp [updateCarousel, computeCardWidth_fst]

theorem updateCarousel_transform (c : Carousel) :
    (updateCarousel c).transform =
      "translateX(" ++ toString (-(updateCarousel c).idx * (computeCardWidth c).2) ++ "px)" := by
  simp [updateCarousel, computeCardWidth_fst]

theorem updateCarousel_prevBtn (c : Carousel) :
    (updateCarousel c).prevBtn =
      c.prevBtn.map (fun _ => { disabled := decide ((updateCarousel c).idx = 0) }) := by
  simp [updateCarousel, computeCardWidth_fst]

theorem updateCarousel_nextBtn (c : Carousel) :
    (updateCarousel c).nextBtn =
      c.nextBtn.map (fun _ => { disabled := decide ((updateCarousel c).idx ≥
        max 0 (((getVisibleCards c.track).length : Int) - 1)) }) := by
  simp [updateCarousel, computeCardWidth_fst]

/-- Clamping is a projection: a clamped index is left alone. -/
theorem clamp_clamp (i m : Int) (hm : 0 ≤ m) :
    min (max 0 (min (max 0 i) m)) m = min (max 0 i) m := by
  rcases le_total 0 i with h | h <;> rcases le_total i m with h1 | h1 <;>
    simp [max_eq_right, max_eq_left, min_eq_left, min_eq_right, *]

theorem clamp_bounds (i m : Int) (hm : 0 ≤ m) :
    0 ≤ min (max 0 i) m ∧ min (max 0 i) m ≤ m := by
  refine ⟨le_min (le_max_left 0 i) hm, min_le_right _ _⟩

theorem maxIndex_nonneg (n : Nat) : (0 : Int) ≤ max 0 ((n : Int) - 1) :=
  le_max_left 0 _

/-- After `updateCarousel` the index lies between 0 and the last visible
card, whatever it was before. -/
theorem updateCarousel_inv (c : Carousel) :
    0 ≤ (updateCarousel c).idx ∧
    (updateCarousel c).idx ≤
      max 0 (((getVisibleCards (updateCarousel c).track).length : Int) - 1) := by
  rw [updateCarousel_track, updateCarousel_idx]
  exact clamp_bounds _ _ (maxIndex_nonneg _)

theorem updateCarousel_updateCarousel (c : Carousel) :
    updateCarousel (updateCarousel c) = updateCarousel c := by
  have hidx : (updateCarousel (updateCarousel c)).idx = (updateCarousel c).idx := by
    rw [updateCarousel_idx (updateCarousel c), updateCarousel_track, updateCarousel_idx c]
    exact clamp_clamp _ _ (maxIndex_nonneg _)
  have hw : (computeCardWidth (updateCarousel c)).2 = (computeCardWidth c).2 :=
    computeCardWidth_snd_track _ _ (updateCarousel_track c) (updateCarousel_gap c)
  apply Carousel.ext
  · rw [updateCarousel_track]
  · rw [updateCarousel_otherProjCards]
  · exact hidx
  · rw [updateCarousel_visibleCards, updateCarousel_visibleCards, updateCarousel_track]
  · rw [updateCarousel_gap]
  · rw [updateCarousel_cardWidth, updateCarousel_cardWidth, hw]
  · rw [updateCarousel_transform (updateCarousel c), updateCarousel_transform c, hidx, hw]
  · rw [updateCarousel_prevBtn (updateCarousel c), hidx, updateCarousel_prevBtn c]
    cases c.prevBtn <;> rfl
  · rw [updateCarousel_nextBtn (updateCarousel c), hidx, updateCarousel_track,
      updateCarousel_nextBtn c]
    cases c.nextBtn <;> rfl
  · rw [updateCarousel_projectCountNode]
  · rw [updateCarousel_filterActive]

/-! ## Lemmas: filters -/

/-- For a token in lower case the test of the handler is the match of
lower-cased tags against the lower-cased token. -/
theorem toolMatches_lower (lower : String → String) (t : String) (d : Option String)
    (ht : lower t = t) :
    toolMatches lower (some t) d =
      (decide (t = "all") || includes (lower (d.getD "")) (lower t)) := by
  simp [toolMatches, ht]

/-- The inline `display` of a child of the track after the filter click. -/
theorem applyFilter_inlineDisplay (lower : String → String) (tool : Option String) (p : Card) :
    (applyFilter lower tool p).inlineDisplay =
      if p.projCard then (if toolMatches lower tool p.dataTools then "" else "none")
      else p.inlineDisplay := by
  unfold applyFilter setDisplay
  by_cases hp : p.projCard = true
  · by_cases h : toolMatches lower tool p.dataTools = true
    · simp [hp, h]
    · simp [hp, h]
  · simp [hp]

/-- The filter click writes the inline `display` only. -/
theorem applyFilter_rest (lower : String → String) (tool : Option String) (p : Card) :
    (applyFilter lower tool p).cascade = p.cascade ∧
    (applyFilter lower tool p).visibility = p.visibility ∧
    (applyFilter lower tool p).dataTools = p.dataTools ∧
    (applyFilter lower tool p).projCard = p.projCard ∧
    (applyFilter lower tool p).width = p.width := by
  unfold applyFilter setDisplay
  by_cases hp : p.projCard = true
  · by_cases h : toolMatches lower tool p.dataTools = true
    · simp [hp, h]
    · simp [hp, h]
  · simp [hp]

theorem applyFilter_visible (lower : String → String) (tool : Option String) (p : Card) :
    ((applyFilter lower tool p).computedDisplay != "none" &&
        (applyFilter lower tool p).visibility != "hidden") =
      (p.cascade (if p.projCard then (if toolMatches lower tool p.dataTools then "" else "none")
          else p.inlineDisplay) != "none" && p.visibility != "hidden") := by
  unfold Card.computedDisplay
  rw [applyFilter_inlineDisplay, (applyFilter_rest lower tool p).1,
    (applyFilter_rest lower tool p).2.1]

/-- After the filter has written the project cards, the visible children of
the track are those that the cascade displays under their new inline
`display` and that `visibility` does not hide. -/
theorem getVisibleCards_applyFilter (lower : String → String) (tool : Option String)
    (track : List Card) :
    (getVisibleCards (track.map (applyFilter lower tool))).length =
      (track.filter (fun p =>
        p.cascade (if p.projCard then (if toolMatches lower tool p.dataTools then "" else "none")
          else p.inlineDisplay) != "none" && p.visibility != "hidden")).length := by
  induction track with
  | nil => rfl
  | cons p rest ih =>
    unfold getVisibleCards at ih ⊢
    rw [List.map_cons, List.filter_cons, List.filter_cons, applyFilter_visible]
    by_cases h : (p.cascade (if p.projCard then
        (if toolMatches lower tool p.dataTools then "" else "none")
        else p.inlineDisplay) != "none" && p.visibility != "hidden") = true
    · simp only [h, if_true, List.length_cons, ih]
    · simp only [h]
      exact ih

/-- The filter handler leaves a project card shown exactly when its test
holds. -/
theorem setDisplay_inlineDisplay (lower : String → String) (tool : Option String) (p : Card) :
    ((setDisplay lower tool p).inlineDisplay = "" ↔ toolMatches lower tool p.dataTools = true) ∧
    ((setDisplay lower tool p).inlineDisplay = "none" ↔
      toolMatches lower tool p.dataTools = false) := by
  unfold setDisplay
  by_cases h : toolMatches lower tool p.dataTools = true
  · simp [h]
  · simp [h]

/-- On an ordinary page (every child of the track is a project card that the
style sheets display when its inline `display` is cleared and hide when it
is `none`, none of them hidden through `visibility`) the children visible
after the filter click are the cards that match. -/
theorem visibleAfter_plain (isMatch : Card → Bool) (track : List Card)
    (hplain : ∀ p ∈ track, p.projCard = true ∧ p.cascade "" ≠ "none" ∧
      p.cascade "none" = "none" ∧ p.visibility ≠ "hidden") :
    (track.filter (fun p =>
      p.cascade (if p.projCard then (if isMatch p then "" else "none")
        else p.inlineDisplay) != "none" && p.visibility != "hidden")).length =
    (track.filter isMatch).length := by
  induction track with
  | nil => rfl
  | cons p rest ih =>
    have hp := hplain p (List.mem_cons_self p rest)
    have hrest := ih (fun q hq => hplain q (List.mem_cons_of_mem p hq))
    rw [List.filter_cons, List.filter_cons]
    by_cases hm : isMatch p = true
    · simp [hp.1, hm, hp.2.1, hp.2.2.2, hrest]
    · simp [hp.1, hm, hp.2.2.1, hrest]

theorem countText_eq (n : Nat) :
    countText n = if n = 1 then toString n ++ " project" else toString n ++ " projects" := by
  unfold countText
  by_cases h : n = 1
  · simp [h]
  · simp only [h, if_false, ne_eq, not_false_eq_true, if_true]
    rw [String.append_assoc]
    rfl

theorem filterClick_eq (lower : String → String) (btn : Nat) (tool : Option String)
    (c : Carousel) :
    filterClick lower btn tool c =
      updateCarousel
        { c with
          filterActive := fun b => decide (b = btn)
          track := c.track.map (applyFilter lower tool)
          otherProjCards := c.otherProjCards.map (setDisplay lower tool)
          projectCountNode := c.projectCountNode.map (fun _ =>
            countText (getVisibleCards (c.track.map (applyFilter lower tool))).length)
          idx := 0 } := rfl

/-! ## Lemmas: nav height -/

theorem getNavHeight_unset : getNavHeight "" = 78 := by decide

theorem getNavHeight_unparsed (v : String) (hp : parseInt v = none) : getNavHeight v = 78 := by
  by_cases hv : v = ""
  · rw [hv]; exact getNavHeight_unset
  · simp [getNavHeight, hv, hp]

theorem getNavHeight_parsed (v : String) (n : Int) (hv : v ≠ "") (hp : parseInt v = some n)
    (hn : n ≠ 0) : getNavHeight v = n := by
  simp [getNavHeight, hv, hp, hn]

/-! ## Scrollspy -/

/-- C1: `updateActiveLink` leaves active the link of the first entry, in list
order, whose span `[top, top + height)` holds `scrollY + navHeight + 12`; when
no span holds it and `scrollY + innerHeight >= scrollHeight - 10`, the last
link of the list (none for an empty list); otherwise no link. The link found
is a link of the list, an anchor is active afterwards exactly when it is the
one found, and so at most one anchor is active. -/
theorem updateActiveLink_spec (w : Window) (navAnchors : List LinkId)
    (sections : List SpyEntry) (active : LinkId → Bool) :
    (∀ (i : Nat) (hi : i < sections.length),
        InSpan sections[i].sec (w.scrollY + getNavHeight w.navHeightVar + 12) →
        (∀ (j : Nat) (hj : j < i),
          ¬ InSpan (sections[j]).sec (w.scrollY + getNavHeight w.navHeightVar + 12)) →
        foundLink w sections = some sections[i].link) ∧
    ((∀ e ∈ sections, ¬ InSpan e.sec (w.scrollY + getNavHeight w.navHeightVar + 12)) →
        w.scrollY + w.innerHeight ≥ w.scrollHeight - 10 →
        foundLink w sections = sections.getLast?.map (fun e => e.link)) ∧
    ((∀ e ∈ sections, ¬ InSpan e.sec (w.scrollY + getNavHeight w.navHeightVar + 12)) →
        ¬ (w.scrollY + w.innerHeight ≥ w.scrollHeight - 10) →
        foundLink w sections = none) ∧
    (∀ l, foundLink w sections = some l → l ∈ sections.map (fun e => e.link)) ∧
    (∀ a ∈ navAnchors,
        (updateActiveLink w navAnchors sections active a = true ↔
          foundLink w sections = some a)) ∧
    (∀ a ∈ navAnchors, ∀ b ∈ navAnchors,
        updateActiveLink w navAnchors sections active a = true →
        updateActiveLink w navAnchors sections active b = true → a = b) := by
  refine ⟨?_, ?_, ?_, ?_, ?_, ?_⟩
  · intro i hi hin hbefore
    simp only [foundLink, scanSections_first _ sections i hi hin hbefore]
  · intro hnone hbottom
    simp only [foundLink, scanSections_none _ sections hnone, hbottom, if_true,
      List.getLast?_eq_getElem?]
  · intro hnone hbottom
    simp only [foundLink, scanSections_none _ sections hnone, hbottom, if_false]
  · intro l hl
    unfold foundLink at hl
    cases hs : scanSections (w.scrollY + getNavHeight w.navHeightVar + 12) sections with
    | some l2 =>
      simp only [hs, Option.some.injEq] at hl
      exact scanSections_mem _ sections l (hl ▸ hs)
    | none =>
      simp only [hs] at hl
      split at hl
      · rw [Option.map_eq_some'] at hl
        obtain ⟨e, he, hel⟩ := hl
        exact List.mem_map.2 ⟨e, List.getElem?_mem he, hel⟩
      · cases hl
  · intro a ha
    exact updateActiveLink_apply w navAnchors sections active a ha
  · intro a ha b hb hact hbct
    have h1 := (updateActiveLink_apply w navAnchors sections active a ha).1 hact
    have h2 := (updateActiveLink_apply w navAnchors sections active b hb).1 hbct
    rw [h1] at h2
    exact Option.some.inj h2

/-- At 100px with the default nav height the position is 190: the second and
the third sample section both hold it, and the second link wins. -/
theorem updateActiveLink_spec_witness :
    InSpan (sampleSections[2]).sec 190 ∧
    foundLink sampleWindow sampleSections = some 2 ∧
    (updateActiveLink sampleWindow [1, 2, 3] sampleSections (fun _ => true) 2 = true ↔
      foundLink sampleWindow sampleSections = some 2) :=
  ⟨by decide,
   (updateActiveLink_spec sampleWindow [1, 2, 3] sampleSections (fun _ => true)).1 1
     (by decide) (by decide) (by decide),
   (updateActiveLink_spec sampleWindow [1, 2, 3] sampleSections (fun _ => true)).2.2.2.2.1 2
     (by decide)⟩

/-! ## Scroll throttle -/

/-- C8: in every state reachable from `ticking = false` with nothing queued,
by scroll events and animation frames, at most one recompute callback is
queued, `ticking` is true exactly when one is queued, and a scroll event that
arrives while one is queued changes nothing. -/
theorem scroll_coalescing (navAnchors : List LinkId) (sections : List SpyEntry)
    (s : ScrollState) (h : ScrollReachable navAnchors sections s) :
    s.queued ≤ 1 ∧ (s.ticking = true ↔ s.queued = 1) ∧ (s.queued = 1 → onScroll s = s) := by
  obtain ⟨hq, ht⟩ := scrollReachable_inv navAnchors sections s h
  refine ⟨hq, ht, ?_⟩
  intro h1
  have htick : s.ticking = true := ht.2 h1
  simp [onScroll, htick]

/-- One scroll event from the start queues one callback; a second one is
coalesced. -/
theorem scroll_coalescing_witness :
    (onScroll { ticking := false, queued := 0, page := sampleNavPage }).queued = 1 ∧
    ((onScroll { ticking := false, queued := 0, page := sampleNavPage }).queued ≤ 1 ∧
     ((onScroll { ticking := false, queued := 0, page := sampleNavPage }).ticking = true ↔
       (onScroll { ticking := false, queued := 0, page := sampleNavPage }).queued = 1) ∧
     ((onScroll { ticking := false, queued := 0, page := sampleNavPage }).queued = 1 →
       onScroll (onScroll { ticking := false, queued := 0, page := sampleNavPage }) =
         onScroll { ticking := false, queued := 0, page := sampleNavPage })) :=
  ⟨rfl, scroll_coalescing [1, 2, 3] sampleSections _
    (ScrollReachable.scroll (ScrollReachable.start sampleNavPage))⟩

/-! ## Mobile menu -/

/-- C9: with the mobile nav and its menu present, `toggleMenu(force)` leaves
the open state equal to `force` and `aria-hidden` equal to its complement;
`toggleMenu()` negates the open state and sets `aria-hidden` to the complement
of the new state; without the mobile nav the call changes nothing. -/
theorem toggleMenu_spec (wasOpen scrolled force : Bool) (m : Menu) (arg : Option Bool) :
    toggleMenu (some { openClass := wasOpen, scrolled := scrolled, menu := some m }) (some force) =
      some { openClass := force, scrolled := scrolled,
             menu := some { ariaHidden := some (if force then "false" else "true") } } ∧
    toggleMenu (some { openClass := wasOpen, scrolled := scrolled, menu := some m }) none =
      some { openClass := !wasOpen, scrolled := scrolled,
             menu := some { ariaHidden := some (if !wasOpen then "false" else "true") } } ∧
    toggleMenu none arg = none := by
  refine ⟨?_, ?_, rfl⟩
  · cases force <;> rfl
  · cases wasOpen <;> rfl

/-! ## Nav height -/

/-- C10, at the value `0px`: the variable is set and parses to 0, and
`getNavHeight` returns 78. -/
theorem getNavHeight_zero :
    parseInt "0px" = some 0 ∧ getNavHeight "0px" = 78 := by
  constructor <;> decide

/-! ## Carousel -/

/-- C2: after every operation of the carousel (recompute, previous, next,
filter), from the initial state on and whatever the track is at that moment,
the index lies between 0 and `max(0, n - 1)`, `n` the number of visible cards
of the track the operation ran on. -/
theorem carousel_index_invariant (lower : String → String) (c : Carousel)
    (h : CarouselReachable lower c) :
    0 ≤ c.idx ∧ c.idx ≤ max 0 (((getVisibleCards c.track).length : Int) - 1) := by
  cases h with
  | init page => exact updateCarousel_inv _
  | step track op _ =>
    cases op with
    | update => exact updateCarousel_inv _
    | prev => exact updateCarousel_inv _
    | next => exact updateCarousel_inv _
    | filter btn tool => exact updateCarousel_inv _

/-- The sample run: two next clicks bring the index to 2, and the recompute
on a track with two visible cards brings it back to 1. -/
theorem carousel_index_invariant_witness :
    sampleRun.idx = 1 ∧
    (0 ≤ sampleRun.idx ∧
     sampleRun.idx ≤ max 0 (((getVisibleCards sampleRun.track).length : Int) - 1)) :=
  ⟨by decide,
   carousel_index_invariant asciiLower sampleRun
    (CarouselReachable.step hiddenTrack CarouselOp.update
      (CarouselReachable.step sampleTrack CarouselOp.next
        (CarouselReachable.step sampleTrack CarouselOp.next
          (CarouselReachable.init (samplePage sampleTrack 0)))))⟩

/-- C5: with 0 or 1 visible card, whatever the index and the card width
were, `updateCarousel` leaves the index at 0, applies a translation of 0px and
disables both controls; with 0 visible cards `maxIndex` is 0 and the card
width is 360. -/
theorem updateCarousel_boundary (c : Carousel) (h : (getVisibleCards c.track).length ≤ 1) :
    (updateCarousel c).idx = 0 ∧
    (updateCarousel c).transform = "translateX(0px)" ∧
    (updateCarousel c).prevBtn = c.prevBtn.map (fun _ => { disabled := true }) ∧
    (updateCarousel c).nextBtn = c.nextBtn.map (fun _ => { disabled := true }) ∧
    ((getVisibleCards c.track).length = 0 →
      max 0 (((getVisibleCards c.track).length : Int) - 1) = 0 ∧
      (updateCarousel c).cardWidth = 360) := by
  have hmax : max 0 (((getVisibleCards c.track).length : Int) - 1) = 0 :=
    max_eq_left (by omega)
  have hidx : (updateCarousel c).idx = 0 := by
    rw [updateCarousel_idx, hmax]
    exact min_eq_right (le_max_left 0 c.idx)
  refine ⟨hidx, ?_, ?_, ?_, ?_⟩
  · rw [updateCarousel_transform, hidx]
    simp only [neg_zero, zero_mul]
    rfl
  · rw [updateCarousel_prevBtn, hidx]
    simp
  · rw [updateCarousel_nextBtn, hidx, hmax]
    simp
  · intro h0
    refine ⟨hmax, ?_⟩
    rw [updateCarousel_cardWidth]
    exact computeCardWidth_none c (List.length_eq_zero.1 h0)

/-- One visible card, the index at 7 before the call. -/
theorem updateCarousel_boundary_witness :
    (getVisibleCards (samplePage singleTrack 7).track).length ≤ 1 ∧
    ((updateCarousel (samplePage singleTrack 7)).idx = 0 ∧
     (updateCarousel (samplePage singleTrack 7)).transform = "translateX(0px)" ∧
     (updateCarousel (samplePage singleTrack 7)).prevBtn =
       (samplePage singleTrack 7).prevBtn.map (fun _ => { disabled := true }) ∧
     (updateCarousel (samplePage singleTrack 7)).nextBtn =
       (samplePage singleTrack 7).nextBtn.map (fun _ => { disabled := true }) ∧
     ((getVisibleCards (samplePage singleTrack 7).track).length = 0 →
       max 0 (((getVisibleCards (samplePage singleTrack 7).track).length : Int) - 1) = 0 ∧
       (updateCarousel (samplePage singleTrack 7)).cardWidth = 360)) :=
  ⟨by decide, updateCarousel_boundary (samplePage singleTrack 7) (by decide)⟩

/-- C6: from an index `i` with `0 <= i` (in particular from every `i` with
`0 <= i <= max(0, n - 1)`), `n` the visible cards counted at the click, a next
click leaves the index equal to `min(max(0, n - 1), i + 1)`; when `i` is
`maxIndex` the index is unchanged and the next control is disabled
afterwards. -/
theorem nextClick_clamped (c : Carousel) (h0 : 0 ≤ c.idx) :
    (nextClick c).idx =
      min (max 0 (((getVisibleCards c.track).length : Int) - 1)) (c.idx + 1) ∧
    (c.idx = max 0 (((getVisibleCards c.track).length : Int) - 1) →
      (nextClick c).idx = c.idx ∧
      (nextClick c).nextBtn = c.nextBtn.map (fun _ => { disabled := true })) := by
  have hm := maxIndex_nonneg (getVisibleCards c.track).length
  have hidx : (nextClick c).idx =
      min (max 0 (((getVisibleCards c.track).length : Int) - 1)) (c.idx + 1) := by
    unfold nextClick
    rw [updateCarousel_idx]
    simp only []
    have hpos : 0 ≤ min (max 0 (((getVisibleCards c.track).length : Int) - 1)) (c.idx + 1) :=
      le_min hm (by omega)
    rw [max_eq_right hpos]
    exact min_eq_left (min_le_left _ _)
  refine ⟨hidx, ?_⟩
  intro heq
  have hsame : (nextClick c).idx = c.idx := by
    rw [hidx, ← heq]
    exact min_eq_left (by omega)
  refine ⟨hsame, ?_⟩
  have hbtn : (nextClick c).nextBtn =
      c.nextBtn.map (fun _ => { disabled := decide ((nextClick c).idx ≥
        max 0 (((getVisibleCards c.track).length : Int) - 1)) }) := by
    unfold nextClick
    rw [updateCarousel_nextBtn]
  rw [hbtn, hsame, ← heq]
  simp

/-- Three visible cards and the index at 2: a next click leaves it at 2 and
the next control disabled. -/
theorem nextClick_clamped_witness :
    (nextClick (samplePage (sampleTrack.take 3) 2)).idx = 2 ∧
    (nextClick (samplePage (sampleTrack.take 3) 2)).nextBtn = some { disabled := true } ∧
    (nextClick (samplePage (sampleTrack.take 3) 2)).idx =
      min (max 0 (((getVisibleCards (samplePage (sampleTrack.take 3) 2).track).length : Int) - 1))
        ((samplePage (sampleTrack.take 3) 2).idx + 1) :=
  ⟨((nextClick_clamped (samplePage (sampleTrack.take 3) 2) (by decide)).2
      (by decide)).1,
   ((nextClick_clamped (samplePage (sampleTrack.take 3) 2) (by decide)).2
      (by decide)).2,
   (nextClick_clamped (samplePage (sampleTrack.take 3) 2) (by decide)).1⟩

/-- C7: running `updateCarousel` twice in a row on the same cards gives the
same index, the same transform and the same disabled flags of the two
controls as running it once. -/
theorem updateCarousel_idempotent (c : Carousel) :
    (updateCarousel (updateCarousel c)).idx = (updateCarousel c).idx ∧
    (updateCarousel (updateCarousel c)).transform = (updateCarousel c).transform ∧
    (updateCarousel (updateCarousel c)).prevBtn = (updateCarousel c).prevBtn ∧
    (updateCarousel (updateCarousel c)).nextBtn = (updateCarousel c).nextBtn := by
  rw [updateCarousel_updateCarousel]
  exact ⟨rfl, rfl, rfl, rfl⟩

/-! ## Filters -/

/-- C3, at the token `React` and the tags `React, Node`: whenever
`toLowerCase` sends `React, Node` to `react, node` and `React` to `react`,
the lower-cased tags contain the lower-cased token, and yet the test of the
filter handler fails and the handler hides the card, since it looks for the
token as written in the lower-cased tags. -/
theorem applyFilter_capital_token (lower : String → String)
    (htags : lower "React, Node" = "react, node") (htoken : lower "React" = "react") :
    (decide ("React" = "all") ||
      includes (lower "React, Node") (lower "React")) = true ∧
    toolMatches lower (some "React") (some "React, Node") = false ∧
    (applyFilter lower (some "React") (plainCard (some "React, Node"))).inlineDisplay = "none" ∧
    (applyFilter lower (some "React") (plainCard (some "React, Node"))).computedDisplay =
      "none" := by
  have hspec : (decide ("React" = "all") ||
      includes (lower "React, Node") (lower "React")) = true := by
    rw [htags, htoken]
    decide
  have hcode : toolMatches lower (some "React") (some "React, Node") = false := by
    simp only [toolMatches, Option.getD_some, htags]
    decide
  refine ⟨hspec, hcode, ?_, ?_⟩
  · rw [applyFilter_inlineDisplay]
    simp only [plainCard, hcode]
    decide
  · unfold Card.computedDisplay
    rw [applyFilter_inlineDisplay, (applyFilter_rest lower (some "React") _).1]
    simp only [plainCard, hcode]
    decide

/-- The same with the lower-casing of the ASCII letters. -/
theorem applyFilter_capital_token_witness :
    asciiLower "React, Node" = "react, node" ∧ asciiLower "React" = "react" ∧
    ((decide ("React" = "all") ||
      includes (asciiLower "React, Node") (asciiLower "React")) = true ∧
     toolMatches asciiLower (some "React") (some "React, Node") = false ∧
     (applyFilter asciiLower (some "React") (plainCard (some "React, Node"))).inlineDisplay =
       "none" ∧
     (applyFilter asciiLower (some "React") (plainCard (some "React, Node"))).computedDisplay =
       "none") :=
  ⟨by decide, by decide, applyFilter_capital_token asciiLower (by decide) (by decide)⟩

/-- C4 as stated fails with the token `react` on two tracks of three cards
where two cards match the filter: on `sheetHiddenTrack`, whose first card a
rule of the style sheets keeps hidden, and on `hiddenTrack`, whose first card
is hidden through `visibility`. In both the handler writes `1 project` and
disables the next control. -/
theorem filterClick_counts_visible_only :
    ((sheetHiddenTrack.filter (fun p => decide ("react" = "all") ||
        includes (asciiLower (p.dataTools.getD "")) (asciiLower "react"))).length = 2 ∧
      (filterClick asciiLower 1 (some "react") (samplePage sheetHiddenTrack 0)).projectCountNode =
        some "1 project" ∧
      (filterClick asciiLower 1 (some "react") (samplePage sheetHiddenTrack 0)).projectCountNode ≠
        some "2 projects" ∧
      (filterClick asciiLower 1 (some "react") (samplePage sheetHiddenTrack 0)).nextBtn =
        some { disabled := true }) ∧
    ((hiddenTrack.filter (fun p => decide ("react" = "all") ||
        includes (asciiLower (p.dataTools.getD "")) (asciiLower "react"))).length = 2 ∧
      (filterClick asciiLower 1 (some "react") (samplePage hiddenTrack 0)).projectCountNode =
        some "1 project" ∧
      (filterClick asciiLower 1 (some "react") (samplePage hiddenTrack 0)).nextBtn =
        some { disabled := true }) := by
  refine ⟨⟨by decide, by decide, by decide, by decide⟩, by decide, by decide, by decide⟩

/-- C4, amended: for a filter token `t` in lower case, let `n` be the number
of children of the track that are visible once the click has written the
inline `display` of every project card (`''` when the token is `all` or the
lower-cased tags contain the lower-cased token, `'none'` otherwise; a child
without the class `proj-card` keeps its inline `display`): the children that
the cascade displays under that inline `display` and that `visibility` does
not hide. After the filter click the count node, when present, reads the
decimal `n` followed by ` project` when `n = 1` and ` projects` otherwise,
the index is 0, the previous control is disabled, and the next control is
disabled exactly when `n <= 1`. On a page where every child of the track is
a project card that the style sheets display when its inline `display` is
cleared and hide when it is `none`, none hidden through `visibility`, `n` is
the number of cards that match the filter. -/
theorem filterClick_postcondition (lower : String → String) (c : Carousel) (btn : Nat)
    (t : String) (n : Nat) (ht : lower t = t)
    (hn : n = (c.track.filter (fun p =>
      p.cascade (if p.projCard then
          (if decide (t = "all") || includes (lower (p.dataTools.getD "")) (lower t) then ""
            else "none")
        else p.inlineDisplay) != "none" && p.visibility != "hidden")).length) :
    (filterClick lower btn (some t) c).projectCountNode =
      c.projectCountNode.map (fun _ =>
        if n = 1 then toString n ++ " project" else toString n ++ " projects") ∧
    (filterClick lower btn (some t) c).idx = 0 ∧
    (filterClick lower btn (some t) c).prevBtn = c.prevBtn.map (fun _ => { disabled := true }) ∧
    (filterClick lower btn (some t) c).nextBtn =
      c.nextBtn.map (fun _ => { disabled := decide (n ≤ 1) }) ∧
    ((∀ p ∈ c.track, p.projCard = true ∧ p.cascade "" ≠ "none" ∧
        p.cascade "none" = "none" ∧ p.visibility ≠ "hidden") →
      n = (c.track.filter (fun p =>
        decide (t = "all") || includes (lower (p.dataTools.getD "")) (lower t))).length) := by
  have hvis : (getVisibleCards (c.track.map (applyFilter lower (some t)))).length = n := by
    rw [getVisibleCards_applyFilter, hn]
    simp only [toolMatches_lower lower t _ ht]
  have hidx : (filterClick lower btn (some t) c).idx = 0 := by
    rw [filterClick_eq, updateCarousel_idx]
    simp only [max_self]
    exact min_eq_left (maxIndex_nonneg _)
  refine ⟨?_, hidx, ?_, ?_, ?_⟩
  · rw [filterClick_eq, updateCarousel_projectCountNode]
    simp only [hvis, countText_eq]
  · have hbtn : (filterClick lower btn (some t) c).prevBtn =
        c.prevBtn.map (fun _ =>
          { disabled := decide ((filterClick lower btn (some t) c).idx = 0) }) := by
      rw [filterClick_eq, updateCarousel_prevBtn]
    rw [hbtn, hidx]
    simp
  · have hbtn : (filterClick lower btn (some t) c).nextBtn =
        c.nextBtn.map (fun _ => { disabled := decide ((filterClick lower btn (some t) c).idx ≥
          max 0 (((getVisibleCards (c.track.map (applyFilter lower (some t)))).length : Int)
            - 1)) }) := by
      rw [filterClick_eq, updateCarousel_nextBtn]
    rw [hbtn, hidx, hvis]
    have hiff : ((0 : Int) ≥ max 0 ((n : Int) - 1)) ↔ n ≤ 1 := by
      rw [ge_iff_le, max_le_iff]
      omega
    simp only [hiff]
  · intro hplain
    rw [hn]
    exact visibleAfter_plain
      (fun p => decide (t = "all") || includes (lower (p.dataTools.getD "")) (lower t))
      c.track hplain

/-- Five cards of an ordinary page, the index at 3, filter `react` matching
two of them: the count reads `2 projects`, the index is 0, previous is
disabled and next is enabled. -/
theorem filterClick_postcondition_witness :
    (filterClick asciiLower 1 (some "react") (samplePage sampleTrack 3)).projectCountNode =
      some "2 projects" ∧
    (filterClick asciiLower 1 (some "react") (samplePage sampleTrack 3)).idx = 0 ∧
    (filterClick asciiLower 1 (some "react") (samplePage sampleTrack 3)).prevBtn =
      some { disabled := true } ∧
    (filterClick asciiLower 1 (some "react") (samplePage sampleTrack 3)).nextBtn =
      some { disabled := false } ∧
    2 = (sampleTrack.filter (fun p => decide ("react" = "all") ||
      includes (asciiLower (p.dataTools.getD "")) (asciiLower "react"))).length :=
  ⟨(filterClick_postcondition asciiLower (samplePage sampleTrack 3) 1 "react" 2
      (by decide) (by decide)).1,
   (filterClick_postcondition asciiLower (samplePage sampleTrack 3) 1 "react" 2
      (by decide) (by decide)).2.1,
   (filterClick_postcondition asciiLower (samplePage sampleTrack 3) 1 "react" 2
      (by decide) (by decide)).2.2.1,
   (filterClick_postcondition asciiLower (samplePage sampleTrack 3) 1 "react" 2
      (by decide) (by decide)).2.2.2.1,
   (filterClick_postcondition asciiLower (samplePage sampleTrack 3) 1 "react" 2
      (by decide) (by decide)).2.2.2.2 (by decide)⟩

end Portfolio
